import Mathlib

/-!
Verification of the bronly restaurant-reservation engine.

Shallow embedding of the booking-validation and lifecycle code:
* `apps/reservations/forms.py` — `ReservationForm` (field cleaners, `clean`,
  `_check_time_conflicts`) and `AvailabilityCheckForm._check_availability`;
* `apps/restaurants/forms.py` — `PublicReservationForm.clean`;
* `apps/reservations/views.py` — `cancel_reservation`, `confirm_reservation`.

Dates are modelled as day numbers, times of day as minutes since midnight,
so a Python `datetime.combine(date, time)` becomes `date * 1440 + time`
and `timedelta(hours=2)` becomes `+ 120` (datetime arithmetic is total, so
plain `Nat` arithmetic is exact). Reservation statuses are the five values
of `Reservation.STATUS_CHOICES`.
-/

namespace Bronly

/-- `Reservation.STATUS_CHOICES` in `apps/reservations/models.py`. -/
inductive Status
  | pending
  | confirmed
  | cancelled
  | completed
  | noShow
deriving DecidableEq, Repr

/-- The columns of the `Reservation` model that the validation logic reads. -/
structure Reservation where
  customerId : Nat
  tableId : Nat
  reservationDate : Nat
  reservationTime : Nat
  guestCount : Int
  status : Status
deriving DecidableEq, Repr

/-- The `status__in=['pending', 'confirmed']` filter used by both conflict
scanners: only pending and confirmed reservations are "active". -/
def activeRes (r : Reservation) : Bool :=
  r.status == .pending || r.status == .confirmed

/-- `datetime.combine(date, time)` as minutes since day 0. -/
def combineMinutes (date time : Nat) : Nat :=
  date * 1440 + time

/-- `timedelta(hours=2)` in minutes: the fixed booking-window length. -/
def windowMinutes : Nat := 2 * 60

/-- Start of a stored reservation's booking window
(`datetime.combine(existing.reservation_date, existing.reservation_time)`). -/
def resStart (r : Reservation) : Nat :=
  combineMinutes r.reservationDate r.reservationTime

/-- `ReservationForm._check_time_conflicts` (forms.py lines 101-130).
Returns `true` when the slot is free, `false` on the first 2-hour-window
overlap with an active reservation on the same table and date. -/
def check_time_conflicts (tableId date time : Nat) (db : List Reservation) : Bool :=
  let newStart := combineMinutes date time
  let newEnd := newStart + windowMinutes
  let existing := db.filter fun r =>
    r.tableId == tableId && r.reservationDate == date && activeRes r
  existing.all fun r =>
    let existStart := resStart r
    let existEnd := existStart + windowMinutes
    !(newStart < existEnd && newEnd > existStart)

/-- `AvailabilityCheckForm._check_availability` (forms.py lines 202-231):
the AJAX availability scanner, textually the same algorithm as
`_check_time_conflicts`. -/
def check_availability (tableId date time : Nat) (db : List Reservation) : Bool :=
  let newStart := combineMinutes date time
  let newEnd := newStart + windowMinutes
  let existing := db.filter fun r =>
    r.tableId == tableId && r.reservationDate == date && activeRes r
  existing.all fun r =>
    let existStart := resStart r
    let existEnd := existStart + windowMinutes
    !(newStart < existEnd && newEnd > existStart)

/-- The operating-hours test `restaurant.opening_time <= reservation_time
<= restaurant.closing_time` (forms.py line 90). -/
def withinHours (opening closing time : Nat) : Bool :=
  opening ≤ time && time ≤ closing

/-- `PublicReservationForm.clean` VALIDATION 3 (restaurants/forms.py lines
225-230): an active reservation with the very same table, date and time. -/
def publicOverlapExists (tableId date time : Nat) (db : List Reservation) : Bool :=
  db.any fun r =>
    r.tableId == tableId && r.reservationDate == date &&
      r.reservationTime == time && activeRes r

/-- The validation errors the two booking forms can attach, with the data
each message interpolates (`guestCapacity` carries the table capacity the
message names, `hours` the operating hours it names). -/
inductive FormError
  | pastDate
  | guestTooFew
  | guestTooMany
  | guestCapacity (maxCapacity : Int)
  | hours (opening closing : Nat)
  | slotConflict
deriving DecidableEq, Repr

/-- The per-field cleaners both forms share: `clean_reservation_date`
(past date) and `clean_guest_count` (`not guest_count or guest_count < 1`,
then `guest_count > 20`). Django runs every field cleaner and collects
their errors together. -/
def fieldErrors (today date : Nat) (guestCount : Int) : List FormError :=
  (if date < today then [FormError.pastDate] else []) ++
  (if guestCount < 1 then [FormError.guestTooFew]
   else if guestCount > 20 then [FormError.guestTooMany] else [])

/-- `ReservationForm.clean` (forms.py lines 70-99) on fully-cleaned fields:
capacity, then operating hours, then the 2-hour conflict scan. Each check
`raise`s, so at most one error escapes. -/
def reservationFormClean (capacity : Int) (opening closing : Nat)
    (tableId date time : Nat) (guestCount : Int) (db : List Reservation) :
    Except FormError Unit :=
  if guestCount > capacity then .error (.guestCapacity capacity)
  else if !(withinHours opening closing time) then .error (.hours opening closing)
  else if !(check_time_conflicts tableId date time db) then .error .slotConflict
  else .ok ()

/-- Full `ReservationForm` validation: if any field cleaner failed, Django's
`clean` returns early (forms.py lines 79-80) leaving just the field errors;
otherwise `clean` contributes its single raised error, if any. -/
def reservationFormValidate (today : Nat) (capacity : Int) (opening closing : Nat)
    (tableId date time : Nat) (guestCount : Int) (db : List Reservation) :
    List FormError :=
  match fieldErrors today date guestCount with
  | [] =>
    match reservationFormClean capacity opening closing tableId date time guestCount db with
    | .ok _ => []
    | .error e => [e]
  | es => es

/-- `PublicReservationForm.clean` (restaurants/forms.py lines 188-238) on
fully-cleaned fields: capacity, hours and exact-slot overlap via
`add_error`, so all applicable errors are collected. -/
def publicFormClean (capacity : Int) (opening closing : Nat)
    (tableId date time : Nat) (guestCount : Int) (db : List Reservation) :
    List FormError :=
  (if guestCount > capacity then [FormError.guestCapacity capacity] else []) ++
  (if !(withinHours opening closing time) then [FormError.hours opening closing] else []) ++
  (if publicOverlapExists tableId date time db then [FormError.slotConflict] else [])

/-- Full `PublicReservationForm` validation, assembled like
`reservationFormValidate` (its field cleaners are the same code). -/
def publicFormValidate (today : Nat) (capacity : Int) (opening closing : Nat)
    (tableId date time : Nat) (guestCount : Int) (db : List Reservation) :
    List FormError :=
  match fieldErrors today date guestCount with
  | [] => publicFormClean capacity opening closing tableId date time guestCount db
  | es => es

/-- Outcome of the lifecycle views: `HttpResponseForbidden` or the success
redirect. -/
inductive ViewResult
  | forbidden
  | redirect
deriving DecidableEq, Repr

/-- The parts of a stored reservation the lifecycle views consult:
`reservation.customer_id`, `reservation.table.restaurant.owner_id`,
`reservation.status`. -/
structure ReservationRow where
  customerId : Nat
  ownerId : Nat
  status : Status
deriving DecidableEq, Repr

/-- `cancel_reservation` (views.py lines 71-95): permission check
(customer or owner), then the `status in ['cancelled', 'completed']`
guard, then `status = 'cancelled'`. -/
def cancel_reservation (userId : Nat) (r : ReservationRow) :
    ViewResult × ReservationRow :=
  let isCustomer := r.customerId == userId
  let isOwner := r.ownerId == userId
  if !(isCustomer || isOwner) then (.forbidden, r)
  else if r.status == .cancelled || r.status == .completed then (.forbidden, r)
  else (.redirect, { r with status := .cancelled })

/-- `confirm_reservation` (views.py lines 139-159): owner-only permission
check, then the `status != 'pending'` guard, then `status = 'confirmed'`. -/
def confirm_reservation (userId : Nat) (r : ReservationRow) :
    ViewResult × ReservationRow :=
  if r.ownerId != userId then (.forbidden, r)
  else if r.status != .pending then (.forbidden, r)
  else (.redirect, { r with status := .confirmed })

/-- The spec's strict half-open overlap test between two 2-hour windows
starting at minutes `s1` and `s2`: `s1 < e2 AND e1 > s2`. -/
def windowsOverlap (s1 s2 : Nat) : Bool :=
  s1 < s2 + windowMinutes && s1 + windowMinutes > s2

/-- Spec §8 invariant for the stored set: no two distinct active
reservations on the same table and date have overlapping windows. -/
def TableDateInvariant (db : List Reservation) : Prop :=
  db.Pairwise fun r1 r2 =>
    activeRes r1 = true → activeRes r2 = true → r1.tableId = r2.tableId →
      r1.reservationDate = r2.reservationDate →
      windowsOverlap (resStart r1) (resStart r2) = false

/-- The row `form.save` inserts after `ReservationForm` validation passes:
status defaults to `pending`. -/
def mkPendingReservation (customerId tableId date time : Nat)
    (guestCount : Int) : Reservation :=
  { customerId := customerId, tableId := tableId, reservationDate := date,
    reservationTime := time, guestCount := guestCount, status := .pending }

end Bronly

namespace Bronly

/-- `reservationFormClean` can only fail with a capacity, hours or
slot-conflict error, never a field-cleaner error. -/
theorem reservationFormClean_errors (capacity : Int) (opening closing : Nat)
    (tableId date time : Nat) (guestCount : Int) (db : List Reservation) :
    ∀ e, reservationFormClean capacity opening closing tableId date time guestCount db
        = .error e →
      e = .guestCapacity capacity ∨ e = .hours opening closing ∨ e = .slotConflict := by
  intro e he
  unfold reservationFormClean at he
  split at he
  · exact Or.inl (Except.error.inj he).symm
  · split at he
    · exact Or.inr (Or.inl (Except.error.inj he).symm)
    · split at he
      · exact Or.inr (Or.inr (Except.error.inj he).symm)
      · exact absurd he (by simp)

/-- C10: the AJAX availability scanner and the booking form's conflict
scanner compute the same boolean on every table, date, time and stored
reservation set. -/
theorem availability_matches_booking_conflict :
    ∀ (tableId date time : Nat) (db : List Reservation),
      check_availability tableId date time db =
        check_time_conflicts tableId date time db :=
  fun _ _ _ _ => rfl

/-- C2: the conflict scanner flags a candidate exactly when some active
reservation on the same table and date satisfies the strict half-open
overlap test `candidateStart < existingEnd AND candidateEnd >
existingStart` over 2-hour windows; in particular an existing reservation
whose window merely touches the candidate's at an endpoint is never
flagged. -/
theorem check_time_conflicts_iff_overlap (tableId date time : Nat)
    (db : List Reservation) :
    (check_time_conflicts tableId date time db = false ↔
      ∃ r ∈ db, r.tableId = tableId ∧ r.reservationDate = date ∧
        activeRes r = true ∧
        combineMinutes date time < resStart r + windowMinutes ∧
        resStart r < combineMinutes date time + windowMinutes) ∧
    (∀ r : Reservation, r.tableId = tableId → r.reservationDate = date →
      (r.reservationTime = time + windowMinutes ∨
        time = r.reservationTime + windowMinutes) →
      check_time_conflicts tableId date time [r] = true) := by
  constructor
  · rw [← Bool.not_eq_true]
    simp only [check_time_conflicts, List.all_eq_true, List.mem_filter,
      Bool.and_eq_true, beq_iff_eq, not_forall, Classical.not_imp]
    constructor
    · rintro ⟨r, ⟨hr, ⟨ht, hd⟩, ha⟩, hnot⟩
      refine ⟨r, hr, ht, hd, ha, ?_, ?_⟩ <;> (revert hnot; simp; try omega)
    · rintro ⟨r, hr, ht, hd, ha, h1, h2⟩
      refine ⟨r, ⟨hr, ⟨ht, hd⟩, ha⟩, ?_⟩
      simp; omega
  · intro r ht hd htouch
    simp only [check_time_conflicts, List.all_eq_true, List.mem_filter,
      List.mem_singleton]
    rintro x ⟨rfl, -⟩
    simp only [resStart, combineMinutes, windowMinutes] at htouch ⊢
    simp
    omega

/-- Witness for `check_time_conflicts_iff_overlap`: at 21:00 a reservation
touching a 19:00 booking's window endpoint is not flagged. -/
theorem check_time_conflicts_iff_overlap_witness :
    check_time_conflicts 1 100 1260 [⟨9, 1, 100, 1140, 4, .pending⟩] = true :=
  (check_time_conflicts_iff_overlap 1 100 1260
      [⟨9, 1, 100, 1140, 4, .pending⟩]).2
    ⟨9, 1, 100, 1140, 4, .pending⟩ rfl rfl (Or.inr (by decide))

/-- C5: a reservation that is not pending or confirmed never contributes a
conflict — removing it from the scan changes nothing, and a store holding
only such reservations never blocks a candidate. -/
theorem inactive_never_blocks (tableId date time : Nat)
    (db : List Reservation) :
    (∀ r : Reservation, activeRes r = false →
      check_time_conflicts tableId date time (r :: db) =
        check_time_conflicts tableId date time db) ∧
    ((∀ r ∈ db, activeRes r = false) →
      check_time_conflicts tableId date time db = true) := by
  constructor
  · intro r hr
    simp [check_time_conflicts, List.filter_cons, hr]
  · intro h
    simp only [check_time_conflicts, List.all_eq_true, List.mem_filter,
      Bool.and_eq_true]
    rintro x ⟨hx, -, ha⟩
    exact absurd (h x hx) (by simp [ha])

/-- Witness for `inactive_never_blocks`: a slot held only by a cancelled
reservation is reported free. -/
theorem inactive_never_blocks_witness :
    check_time_conflicts 1 100 1140 [⟨9, 1, 100, 1140, 4, .cancelled⟩] = true :=
  (inactive_never_blocks 1 100 1140 [⟨9, 1, 100, 1140, 4, .cancelled⟩]).2
    (by decide)

end Bronly

namespace Bronly

/-- C6: once the capacity check passes, `ReservationForm.clean` raises the
operating-hours error — whose message names the restaurant's opening and
closing times — exactly for times strictly before opening or strictly
after closing; opening and closing time themselves pass the hours check. -/
theorem hours_check_boundary (capacity : Int) (opening closing : Nat)
    (tableId date time : Nat) (guestCount : Int) (db : List Reservation)
    (hcap : guestCount ≤ capacity) :
    reservationFormClean capacity opening closing tableId date time guestCount db
        = .error (.hours opening closing) ↔ (time < opening ∨ closing < time) := by
  simp only [reservationFormClean, if_neg (not_lt.mpr hcap)]
  by_cases hw : withinHours opening closing time
  · simp only [withinHours, Bool.and_eq_true, decide_eq_true_eq] at hw
    rw [if_neg (by simp [withinHours, hw])]
    split <;> simp <;> omega
  · simp only [withinHours, Bool.and_eq_true, decide_eq_true_eq, not_and_or,
      not_le] at hw
    rw [if_pos (by simp [withinHours]; omega)]
    simp
    omega

/-- Witness for `hours_check_boundary`: one minute after a 22:00 close is
rejected with the hours error. -/
theorem hours_check_boundary_witness :
    reservationFormClean 4 660 1320 1 100 1321 2 [] = .error (.hours 660 1320) :=
  (hours_check_boundary 4 660 1320 1 100 1321 2 [] (by decide)).mpr
    (Or.inr (by decide))

/-- C8: both lifecycle views check authorization before touching the
status: a cancel request from a user who is neither the reservation's
customer nor the restaurant's owner, and a confirm request from anyone but
the owner, return Forbidden with the reservation unchanged, whatever its
status. -/
theorem lifecycle_auth_checked_first (userId : Nat) (r : ReservationRow) :
    (userId ≠ r.customerId → userId ≠ r.ownerId →
      cancel_reservation userId r = (.forbidden, r)) ∧
    (userId ≠ r.ownerId → confirm_reservation userId r = (.forbidden, r)) := by
  constructor
  · intro h1 h2
    simp [cancel_reservation, Ne.symm h1, Ne.symm h2]
  · intro h
    simp [confirm_reservation, bne_iff_ne, Ne.symm h]

/-- Witness for `lifecycle_auth_checked_first`: user 3 may neither cancel
nor confirm a pending reservation owned by customer 1 / owner 2. -/
theorem lifecycle_auth_checked_first_witness :
    cancel_reservation 3 ⟨1, 2, .pending⟩ = (.forbidden, ⟨1, 2, .pending⟩) ∧
    confirm_reservation 3 ⟨1, 2, .pending⟩ = (.forbidden, ⟨1, 2, .pending⟩) :=
  ⟨(lifecycle_auth_checked_first 3 ⟨1, 2, .pending⟩).1 (by decide) (by decide),
   (lifecycle_auth_checked_first 3 ⟨1, 2, .pending⟩).2 (by decide)⟩

/-- C9: full `ReservationForm` validation reports the cannot-book-in-the-
past error exactly when the requested date is strictly before today;
today and every later date pass the date check. -/
theorem past_date_iff (today : Nat) (capacity : Int) (opening closing : Nat)
    (tableId date time : Nat) (guestCount : Int) (db : List Reservation) :
    FormError.pastDate ∈
        reservationFormValidate today capacity opening closing tableId date time
          guestCount db
      ↔ date < today := by
  unfold reservationFormValidate fieldErrors
  by_cases hd : date < today
  · simp only [hd, if_true, List.singleton_append]
    split <;> simp_all
  · simp only [hd, if_false, List.nil_append]
    constructor
    · intro hmem
      exfalso
      split at hmem
      · split at hmem
        · simp at hmem
        · next e heq =>
          rcases reservationFormClean_errors capacity opening closing tableId
              date time guestCount db e heq with h | h | h <;>
            simp [h] at hmem
      · split at hmem <;> simp_all
    · intro h
      exact h.elim

end Bronly

namespace Bronly

/-- C3 counterexample: the cancel view's guard only lists `cancelled` and
`completed`, so the customer of a no-show reservation can still cancel it:
the request succeeds and moves the status out of `no_show`. -/
theorem no_show_cancel_counterexample :
    cancel_reservation 1 ⟨1, 2, .noShow⟩ = (.redirect, ⟨1, 2, .cancelled⟩) ∧
    (⟨1, 2, .noShow⟩ : ReservationRow).status ≠
      (cancel_reservation 1 ⟨1, 2, .noShow⟩).2.status := by
  decide

/-- C3 amended: `cancelled` and `completed` are terminal — any cancel
request on them fails and leaves the status unchanged — and confirm fails
on every non-pending status; but `no_show` is not terminal for cancel: an
authorized cancel of a no-show reservation succeeds and rewrites the
status to `cancelled`. -/
theorem terminal_states_amended (userId : Nat) (r : ReservationRow) :
    (r.status = .cancelled ∨ r.status = .completed →
      cancel_reservation userId r = (.forbidden, r)) ∧
    (r.status ≠ .pending → confirm_reservation userId r = (.forbidden, r)) ∧
    (r.status = .noShow → (r.customerId = userId ∨ r.ownerId = userId) →
      cancel_reservation userId r =
        (.redirect, { r with status := .cancelled })) := by
  refine ⟨fun hst => ?_, fun hst => ?_, fun hst hauth => ?_⟩
  · have hb : (r.status == Status.cancelled || r.status == Status.completed)
        = true := by
      rcases hst with h | h <;> simp [h]
    simp [cancel_reservation, hb]
  · have hb : (r.status != Status.pending) = true := by
      simp [bne_iff_ne, hst]
    simp [confirm_reservation, hb]
  · have ha : (!(r.customerId == userId || r.ownerId == userId)) = false := by
      rcases hauth with h | h <;> simp [h]
    have hb : (r.status == Status.cancelled || r.status == Status.completed)
        = false := by
      simp [hst]
    simp [cancel_reservation, ha, hb]

/-- Witness for `terminal_states_amended`: a completed reservation cannot
be cancelled, a cancelled one cannot be confirmed, and its customer can
cancel a no-show one. -/
theorem terminal_states_amended_witness :
    cancel_reservation 1 ⟨1, 2, .completed⟩ = (.forbidden, ⟨1, 2, .completed⟩) ∧
    confirm_reservation 2 ⟨1, 2, .cancelled⟩ = (.forbidden, ⟨1, 2, .cancelled⟩) ∧
    cancel_reservation 1 ⟨1, 2, .noShow⟩ = (.redirect, ⟨1, 2, .cancelled⟩) :=
  ⟨(terminal_states_amended 1 ⟨1, 2, .completed⟩).1 (Or.inr rfl),
   (terminal_states_amended 2 ⟨1, 2, .cancelled⟩).2.1 (by decide),
   (terminal_states_amended 1 ⟨1, 2, .noShow⟩).2.2 rfl (Or.inl rfl)⟩

end Bronly

namespace Bronly

/-- C4 counterexample: a request that violates both the capacity check
(10 guests on a 4-seat table) and the hours check (23:20 against
11:00-22:00 hours) comes back from `ReservationForm` with only the
capacity error — `clean` raised at the first failing check, so the hours
error is missing. -/
theorem first_error_only_counterexample :
    reservationFormValidate 0 4 660 1320 1 100 1400 10 []
        = [FormError.guestCapacity 4] ∧
    FormError.hours 660 1320 ∉ reservationFormValidate 0 4 660 1320 1 100 1400 10 [] ∧
    withinHours 660 1320 1400 = false := by
  decide

/-- C4 amended: only `PublicReservationForm` collects every applicable
error — once its field cleaners pass, its result contains the capacity,
hours and slot errors each exactly when the corresponding check fails —
while `ReservationForm` reports just the first failing check's error
(a capacity violation alone determines its whole output). -/
theorem error_collection_amended (today : Nat) (capacity : Int)
    (opening closing tableId date time : Nat) (guestCount : Int)
    (db : List Reservation)
    (hf : fieldErrors today date guestCount = []) :
    (FormError.guestCapacity capacity ∈
        publicFormValidate today capacity opening closing tableId date time
          guestCount db ↔ guestCount > capacity) ∧
    (FormError.hours opening closing ∈
        publicFormValidate today capacity opening closing tableId date time
          guestCount db ↔ withinHours opening closing time = false) ∧
    (FormError.slotConflict ∈
        publicFormValidate today capacity opening closing tableId date time
          guestCount db ↔ publicOverlapExists tableId date time db = true) ∧
    (guestCount > capacity →
      reservationFormValidate today capacity opening closing tableId date time
          guestCount db = [FormError.guestCapacity capacity]) := by
  simp only [publicFormValidate, reservationFormValidate, hf]
  refine ⟨?_, ?_, ?_, fun hcap => ?_⟩ <;>
    try (by_cases h1 : guestCount > capacity <;>
      by_cases h2 : withinHours opening closing time <;>
      by_cases h3 : publicOverlapExists tableId date time db <;>
      simp [publicFormClean, h1, h2, h3])
  simp [reservationFormClean, hcap]

/-- Witness for `error_collection_amended`: with capacity, hours and slot
all violated, the public form returns precisely all three errors while
`ReservationForm` returns only the capacity error. -/
theorem error_collection_amended_witness :
    (FormError.hours 660 1320 ∈
      publicFormValidate 0 4 660 1320 1 100 1400 10
        [⟨9, 1, 100, 1400, 2, .pending⟩]) ∧
    (FormError.slotConflict ∈
      publicFormValidate 0 4 660 1320 1 100 1400 10
        [⟨9, 1, 100, 1400, 2, .pending⟩]) ∧
    reservationFormValidate 0 4 660 1320 1 100 1400 10
        [⟨9, 1, 100, 1400, 2, .pending⟩] = [FormError.guestCapacity 4] :=
  ⟨(error_collection_amended 0 4 660 1320 1 100 1400 10
      [⟨9, 1, 100, 1400, 2, .pending⟩] (by decide)).2.1.mpr (by decide),
   (error_collection_amended 0 4 660 1320 1 100 1400 10
      [⟨9, 1, 100, 1400, 2, .pending⟩] (by decide)).2.2.1.mpr (by decide),
   (error_collection_amended 0 4 660 1320 1 100 1400 10
      [⟨9, 1, 100, 1400, 2, .pending⟩] (by decide)).2.2.2 (by decide)⟩

end Bronly

namespace Bronly

/-- C7 counterexample: 25 guests on a 4-seat table fails, but only with
the global 20-guest field error — the result carries no capacity error, so
no message names the table's maximum of 4. -/
theorem capacity_message_counterexample :
    reservationFormValidate 0 4 660 1320 1 100 1140 25 []
        = [FormError.guestTooMany] ∧
    FormError.guestCapacity 4 ∉ reservationFormValidate 0 4 660 1320 1 100 1140 25 [] ∧
    (25 : Int) > 4 := by
  decide

/-- C7 amended: a guest count below 1 always fails the guest-count field
check, and one above the table capacity always fails validation — but the
error names the table's maximum only when the count also passes the
global 1..20 field bounds (and the date is not past); within those bounds
a count of at most the capacity produces no guest-count error at all. -/
theorem guest_count_checks_amended (today : Nat) (capacity : Int)
    (opening closing tableId date time : Nat) (guestCount : Int)
    (db : List Reservation) :
    (guestCount < 1 →
      FormError.guestTooFew ∈
        reservationFormValidate today capacity opening closing tableId date time
          guestCount db) ∧
    (guestCount > capacity →
      reservationFormValidate today capacity opening closing tableId date time
          guestCount db ≠ []) ∧
    (today ≤ date → 1 ≤ guestCount → guestCount ≤ 20 → guestCount > capacity →
      reservationFormValidate today capacity opening closing tableId date time
          guestCount db = [FormError.guestCapacity capacity]) ∧
    (today ≤ date → 1 ≤ guestCount → guestCount ≤ 20 → guestCount ≤ capacity →
      ∀ e ∈ reservationFormValidate today capacity opening closing tableId date
          time guestCount db,
        e ≠ FormError.guestTooFew ∧ e ≠ FormError.guestTooMany ∧
          ∀ c : Int, e ≠ FormError.guestCapacity c) := by
  refine ⟨fun hlt => ?_, fun hcap => ?_, fun hdate hge hle hcap => ?_,
    fun hdate hge hle hcap e he => ?_⟩
  · simp only [reservationFormValidate, fieldErrors, if_pos hlt]
    split
    · next heq =>
      rcases List.append_eq_nil.mp heq with ⟨-, h2⟩
      simp at h2
    · simp
  · simp only [reservationFormValidate, fieldErrors]
    split
    · simp [reservationFormClean, hcap]
    · next heq => exact heq
  · have hfe : fieldErrors today date guestCount = [] := by
      simp [fieldErrors, show ¬ date < today by omega,
        show ¬ guestCount < 1 by omega, show ¬ guestCount > 20 by omega]
    simp [reservationFormValidate, hfe, reservationFormClean, hcap]
  · have hfe : fieldErrors today date guestCount = [] := by
      simp [fieldErrors, show ¬ date < today by omega,
        show ¬ guestCount < 1 by omega, show ¬ guestCount > 20 by omega]
    simp only [reservationFormValidate, hfe] at he
    split at he
    · simp at he
    · next e' heq =>
      simp only [List.mem_singleton] at he
      subst he
      rcases reservationFormClean_errors capacity opening closing tableId date
          time guestCount db _ heq with h | h | h
      · exfalso
        subst h
        unfold reservationFormClean at heq
        rw [if_neg (not_lt.mpr hcap)] at heq
        split at heq <;> (try split at heq) <;> simp_all
      · subst h
        exact ⟨by simp, by simp, fun c => by simp⟩
      · subst h
        exact ⟨by simp, by simp, fun c => by simp⟩

end Bronly

namespace Bronly

/-- Witness for `guest_count_checks_amended`: 10 guests on a 4-seat table
(date and field bounds fine) yields exactly the capacity error naming 4. -/
theorem guest_count_checks_amended_witness :
    reservationFormValidate 0 4 660 1320 1 100 1140 10 []
        = [FormError.guestCapacity 4] :=
  (guest_count_checks_amended 0 4 660 1320 1 100 1140 10 []).2.2.1
    (by decide) (by decide) (by decide) (by decide)

/-- C1 counterexample: with a pending 19:00 reservation stored for the
same table and date, a 20:00 candidate — whose 2-hour window overlaps the
existing one — sails through `PublicReservationForm` with no errors,
because that path only rejects an exactly equal time. -/
theorem public_overlap_accepted_counterexample :
    publicFormValidate 0 4 660 1320 1 100 1200 2
        [⟨9, 1, 100, 1140, 4, .pending⟩] = [] ∧
    activeRes ⟨9, 1, 100, 1140, 4, .pending⟩ = true ∧
    windowsOverlap (combineMinutes 100 1200)
        (resStart ⟨9, 1, 100, 1140, 4, .pending⟩) = true := by
  decide

/-- C1 amended: the `ReservationForm` insert path does preserve the
no-overlapping-windows invariant — an accepted candidate's pending row can
be added without creating an overlapping active pair — but the
`PublicReservationForm` insert path guarantees only that no active
reservation on the table and date has exactly the same start time. -/
theorem insert_paths_overlap_amended (today : Nat) (capacity : Int)
    (opening closing customerId tableId date time : Nat) (guestCount : Int)
    (db : List Reservation) :
    (TableDateInvariant db →
      reservationFormValidate today capacity opening closing tableId date time
          guestCount db = [] →
      TableDateInvariant
        (mkPendingReservation customerId tableId date time guestCount :: db)) ∧
    (publicFormValidate today capacity opening closing tableId date time
        guestCount db = [] →
      ∀ r ∈ db, activeRes r = true → r.tableId = tableId →
        r.reservationDate = date → r.reservationTime ≠ time) := by
  constructor
  · intro hinv hval
    have hconf : check_time_conflicts tableId date time db = true := by
      unfold reservationFormValidate at hval
      split at hval
      · split at hval
        · next heq =>
          unfold reservationFormClean at heq
          split at heq
          · exact absurd heq (by simp)
          · split at heq
            · exact absurd heq (by simp)
            · split at heq
              · exact absurd heq (by simp)
              · next h => simpa using h
        · simp at hval
      · next hne => exact absurd hval hne
    simp only [check_time_conflicts, List.all_eq_true, List.mem_filter,
      Bool.and_eq_true, beq_iff_eq] at hconf
    unfold TableDateInvariant at hinv ⊢
    rw [List.pairwise_cons]
    refine ⟨fun r' hr' => ?_, hinv⟩
    intro hactnew hact ht hd
    simp only [mkPendingReservation] at ht hd
    have hb := hconf r' ⟨hr', ⟨ht.symm, hd.symm⟩, hact⟩
    simp only [Bool.not_eq_true', Bool.and_eq_false_iff,
      decide_eq_false_iff_not, not_lt] at hb
    simp only [windowsOverlap, resStart, mkPendingReservation, combineMinutes,
      windowMinutes, Bool.and_eq_false_iff, decide_eq_false_iff_not, not_lt,
      gt_iff_lt] at hb ⊢
    omega
  · intro hval r' hr' hact ht hd hteq
    unfold publicFormValidate at hval
    split at hval
    · have hov : publicOverlapExists tableId date time db = true := by
        simp only [publicOverlapExists, List.any_eq_true]
        exact ⟨r', hr', by simp [ht, hd, hteq, hact]⟩
      simp [publicFormClean, hov] at hval
    · next hne => exact absurd hval hne

/-- Witness for `insert_paths_overlap_amended`: inserting an accepted
booking into an empty store yields an overlap-free store. -/
theorem insert_paths_overlap_amended_witness :
    TableDateInvariant [mkPendingReservation 9 1 100 1140 4] :=
  (insert_paths_overlap_amended 0 4 660 1320 9 1 100 1140 4 []).1
    (by unfold TableDateInvariant; exact List.Pairwise.nil) (by decide)

end Bronly
